import Mathlib

/-!
Verification of the query-interpretation-and-retrieval pipeline of the
contact-manager bot (`src/bot/ai_interface.py`).

The pipeline's pure parts (`_analyze_query`, `_prepare_context`,
`_format_response`, the prompt construction) are embedded directly as Lean
functions over `List Char`.  The stateful parts (`process_query`,
`_fetch_filtered_contacts`) are embedded with their I/O collaborators
(the Supabase contact store and the Gemini generation call) passed as
explicit function parameters returning `Except`, so that a raising call
is an `Except.error` and the Python `try/except` blocks become matches.

Python `str.lower` / `str.isupper` and the regex character classes are
modelled over the alphabets the program actually manipulates (ASCII plus
the Russian Cyrillic block, which is exactly what the source's own regex
classes `[А-ЯЁа-яёA-Za-z]` enumerate); `\w` is modelled as Latin/Cyrillic
letters, digits and underscore.
-/

namespace ContactBot

/-- Latin letters, the `A-Za-z` part of the source's regex classes. -/
def isLatinLetter (c : Char) : Bool :=
  (('a' ≤ c) && (c ≤ 'z')) || (('A' ≤ c) && (c ≤ 'Z'))

/-- Cyrillic letters `А-ЯЁа-яё` (`U+0410-U+044F` plus `Ё`/`ё`). -/
def isCyrLetter (c : Char) : Bool :=
  ((1040 ≤ c.toNat) && (c.toNat ≤ 1103)) || (c.toNat == 1025) || (c.toNat == 1105)

/-- The class of the source's `re.findall(r'[А-ЯЁа-яёA-Za-z]+', ...)`. -/
def isQueryLetter (c : Char) : Bool :=
  isLatinLetter c || isCyrLetter c

/-- Model of Python's `\w` over the program's alphabets: letters, digits,
underscore. -/
def isWordChar (c : Char) : Bool :=
  isLatinLetter c || isCyrLetter c || c.isDigit || (c == '_')

/-- Model of Python's `\s` (ASCII whitespace). -/
def isSpaceChar (c : Char) : Bool :=
  (c == ' ') || (c == '\t') || (c == '\n') || (c == '\r') ||
  (c == '\x0b') || (c == '\x0c')

/-- The class `[А-ЯЁа-яё\w\s]` capturing the company name in the first
company pattern. -/
def isCompanyCapChar (c : Char) : Bool :=
  isWordChar c || isSpaceChar c

/-- Uppercase/lowercase pairs for the alphabets in play; used to model
Python's `str.lower` and `str.isupper`. -/
def upperLowerPairs : List (Char × Char) :=
  [('A', 'a'), ('B', 'b'), ('C', 'c'), ('D', 'd'), ('E', 'e'), ('F', 'f'),
   ('G', 'g'), ('H', 'h'), ('I', 'i'), ('J', 'j'), ('K', 'k'), ('L', 'l'),
   ('M', 'm'), ('N', 'n'), ('O', 'o'), ('P', 'p'), ('Q', 'q'), ('R', 'r'),
   ('S', 's'), ('T', 't'), ('U', 'u'), ('V', 'v'), ('W', 'w'), ('X', 'x'),
   ('Y', 'y'), ('Z', 'z'),
   ('А', 'а'), ('Б', 'б'), ('В', 'в'), ('Г', 'г'), ('Д', 'д'), ('Е', 'е'),
   ('Ж', 'ж'), ('З', 'з'), ('И', 'и'), ('Й', 'й'), ('К', 'к'), ('Л', 'л'),
   ('М', 'м'), ('Н', 'н'), ('О', 'о'), ('П', 'п'), ('Р', 'р'), ('С', 'с'),
   ('Т', 'т'), ('У', 'у'), ('Ф', 'ф'), ('Х', 'х'), ('Ц', 'ц'), ('Ч', 'ч'),
   ('Ш', 'ш'), ('Щ', 'щ'), ('Ъ', 'ъ'), ('Ы', 'ы'), ('Ь', 'ь'), ('Э', 'э'),
   ('Ю', 'ю'), ('Я', 'я'), ('Ё', 'ё')]

/-- Model of Python `str.lower` on one character. -/
def lowerChar (c : Char) : Char :=
  match upperLowerPairs.find? (fun p => p.1 == c) with
  | some p => p.2
  | none => c

/-- Model of Python `str.isupper` on one character (the tokens it is
applied to consist of `isQueryLetter` characters only). -/
def isUpperChar (c : Char) : Bool :=
  (upperLowerPairs.find? (fun p => p.1 == c)).isSome

/-- Python `w[0].isupper()`; the source only applies it to nonempty
regex tokens. -/
def firstIsUpper : List Char → Bool
  | [] => false
  | c :: _ => isUpperChar c

/-- Does `s` start with `pre`? -/
def listStartsWith : List Char → List Char → Bool
  | [], _ => true
  | _ :: _, [] => false
  | a :: as, b :: bs => (a == b) && listStartsWith as bs

/-- Python's `needle in hay` substring test. -/
def containsSub : List Char → List Char → Bool
  | [], needle => needle.isEmpty
  | c :: t, needle => listStartsWith needle (c :: t) || containsSub t needle

/-- Python `str.strip()`. -/
def pstrip (s : List Char) : List Char :=
  (((s.dropWhile isSpaceChar).reverse).dropWhile isSpaceChar).reverse

/-- Accumulator for `findWords`. -/
def findWordsAux : List Char → List Char → List (List Char)
  | [], acc => if acc.isEmpty then [] else [acc.reverse]
  | c :: rest, acc =>
    if isQueryLetter c then findWordsAux rest (c :: acc)
    else if acc.isEmpty then findWordsAux rest []
    else acc.reverse :: findWordsAux rest []

/-- Model of `re.findall(r'[А-ЯЁа-яёA-Za-z]+', s)`: maximal letter runs. -/
def findWords (s : List Char) : List (List Char) :=
  findWordsAux s []

/-- Tail of the first company pattern `(?:из|в)\s+([А-ЯЁа-яё\w\s]+)` after
the marker: at least one whitespace character, then a greedy capture of
`isCompanyCapChar` characters.  Because whitespace belongs to the capture
class, when no capture character follows the whitespace run the regex
backtracks and captures the run's last whitespace character (possible only
when the run has length at least two). -/
def p1Tail (s : List Char) : Option (List Char) :=
  let sp := s.takeWhile isSpaceChar
  if sp.isEmpty then none
  else
    let rest := s.dropWhile isSpaceChar
    let cap := rest.takeWhile isCompanyCapChar
    if !cap.isEmpty then some cap
    else if 2 ≤ sp.length then some [sp.getLastD ' ']
    else none

/-- Leftmost `re.search` of `(?:из|в)\s+([А-ЯЁа-яё\w\s]+)`: at each
position try the alternative `из` first, then `в`, then move right.
Returns the captured group. -/
def p1Search : List Char → Option (List Char)
  | [] => none
  | c :: rest =>
    match (if (c == 'и') && (match rest with | 'з' :: _ => true | _ => false)
           then p1Tail rest.tail else none) with
    | some cap => some cap
    | none =>
      match (if c == 'в' then p1Tail rest else none) with
      | some cap => some cap
      | none => p1Search rest

/-- The literal `компания` of the second company pattern. -/
def companyWord : List Char := "компания".data

/-- Match of `([А-ЯЁа-яё\w]+)\s+компания` anchored at the current
position: a greedy word-character capture, at least one whitespace
character, then the literal.  No other backtracking parse is viable since
the word class, whitespace and the literal's first character are mutually
exclusive. -/
def p2Try (s : List Char) : Option (List Char) :=
  let cap := s.takeWhile isWordChar
  if cap.isEmpty then none
  else
    let r1 := s.dropWhile isWordChar
    if (r1.takeWhile isSpaceChar).isEmpty then none
    else
      if listStartsWith companyWord (r1.dropWhile isSpaceChar) then some cap
      else none

/-- Leftmost `re.search` of `([А-ЯЁа-яё\w]+)\s+компания`. -/
def p2Search : List Char → Option (List Char)
  | [] => none
  | c :: rest =>
    match p2Try (c :: rest) with
    | some cap => some cap
    | none => p2Search rest

/-- The suffix alternatives of `re.sub(r'(ов|ам|ами|ах|а|у|ом|е|и)$', '', kw)`,
in the source's order. -/
def suffixAlts : List (List Char) :=
  ["ов".data, "ам".data, "ами".data, "ах".data, "а".data, "у".data,
   "ом".data, "е".data, "и".data]

/-- Model of the suffix-stripping `re.sub`: scanning left to right, the
first position whose remainder is exactly one of the alternatives is where
the (end-anchored) match starts, and it is deleted. -/
def stripSuffix : List Char → List Char
  | [] => []
  | c :: rest =>
    if suffixAlts.contains (c :: rest) then [] else c :: stripSuffix rest

/-- `position_keywords` of `_analyze_query`. -/
def positionKeywords : List (List Char) :=
  ["тестировщик".data, "разработчик".data, "менеджер".data,
   "дизайнер".data, "маркетолог".data, "hr".data]

/-- `stop_words` of `_analyze_query`. -/
def stopWords : List (List Char) :=
  ["найди".data, "найд".data, "покажи".data, "покаж".data, "кто".data,
   "мне".data, "нужен".data, "нужна".data, "нужны".data, "все".data,
   "всех".data, "человек".data, "людей".data, "контакт".data,
   "контакты".data, "есть".data, "у".data, "меня".data, "из".data,
   "в".data, "с".data, "на".data, "по".data, "для".data, "или".data,
   "и".data, "а".data, "но".data]

/-- The five intent kinds of the `QueryIntent` data model. -/
inductive IntentKind where
  | name_search
  | company_search
  | position_search
  | tag_search
  | general
deriving DecidableEq, Repr

/-- The classifier's `filter` value: either a single string or a list of
term strings (Python passes either shape). -/
inductive FilterVal where
  | str (s : List Char)
  | list (l : List (List Char))
deriving DecidableEq, Repr

/-- The classifier's result `{'type': ..., 'filter': ...}`. -/
structure QueryIntent where
  type : IntentKind
  filter : FilterVal
deriving DecidableEq, Repr

/-- `w.lower() not in stop_words and len(w) > 1` (line 75 of the source). -/
def isSearchTerm (w : List Char) : Bool :=
  !(stopWords.contains (w.map lowerChar)) && decide (1 < w.length)

/-- The `search_terms` of `_analyze_query`: significant words of the
stripped query. -/
def searchTermsOf (original_query : List Char) : List (List Char) :=
  (findWords original_query).filter isSearchTerm

/-- Embedding of `AIInterface._analyze_query` (lines 28-86): company
patterns on the stripped original query, then position keywords on the
lowered query, then stop-word-filtered tokens (capitalized ones
preferred), else a `general` intent carrying the raw query. -/
def analyzeQuery (query : List Char) : QueryIntent :=
  match p1Search (pstrip query) with
  | some cap => ⟨IntentKind.company_search, FilterVal.str (pstrip cap)⟩
  | none =>
    match p2Search (pstrip query) with
    | some cap => ⟨IntentKind.company_search, FilterVal.str (pstrip cap)⟩
    | none =>
      match positionKeywords.find?
          (fun k => containsSub (pstrip (query.map lowerChar)) k) with
      | some k => ⟨IntentKind.position_search, FilterVal.str (stripSuffix k)⟩
      | none =>
        if (searchTermsOf (pstrip query)).isEmpty then
          ⟨IntentKind.general, FilterVal.str query⟩
        else if ((searchTermsOf (pstrip query)).filter firstIsUpper).isEmpty then
          ⟨IntentKind.name_search, FilterVal.list (searchTermsOf (pstrip query))⟩
        else
          ⟨IntentKind.name_search,
           FilterVal.list ((searchTermsOf (pstrip query)).filter firstIsUpper)⟩

/-- A row of the `contact_summary` view as the pipeline sees it: a Python
dict, so every field access may be absent.  `_prepare_context` reads
`contact['name']` unconditionally (a `KeyError` if absent) and every other
field defensively via `.get`, hence `name` is also an `Option` here.
`created_at` is the creation timestamp the store orders by. -/
structure Contact where
  name : Option (List Char)
  company : Option (List Char)
  position : Option (List Char)
  tags : List (List Char)
  bio : Option (List Char)
  last_interaction_date : Option (List Char)
  telegram : Option (List Char)
  email : Option (List Char)
  phone : Option (List Char)
  created_at : Nat
deriving DecidableEq, Repr

/-- The store queries `_fetch_filtered_contacts` builds: an OR of
`name.ilike.%term%` conditions, an `ilike` on `company` or `position`, or
the most-recent rows up to a limit.  All are ordered by `created_at`
descending; only `recent` carries a limit. -/
inductive StoreQuery where
  | nameOr (pats : List (List Char))
  | companyIlike (pat : List Char)
  | positionIlike (pat : List Char)
  | recent (limit : Nat)
deriving DecidableEq, Repr

/-- Modelled from the spec: the contact-store collaborator's `ilike`
filtering (§6: "case-insensitive substring filtering on
name/company/position").  A NULL field matches nothing; the patterns the
code builds are `%text%`, i.e. case-insensitive substring of the field. -/
def ilikeSub (field : Option (List Char)) (pat : List Char) : Bool :=
  match field with
  | none => false
  | some v => containsSub (v.map lowerChar) (pat.map lowerChar)

/-- Insert a contact into a list sorted by `created_at` descending. -/
def insertByCreated (c : Contact) : List Contact → List Contact
  | [] => [c]
  | d :: rest =>
    if d.created_at < c.created_at then c :: d :: rest
    else d :: insertByCreated c rest

/-- Modelled from the spec: the store's `order('created_at', desc=True)`
(§6: "ordering by creation timestamp descending"). -/
def sortRecent : List Contact → List Contact
  | [] => []
  | c :: rest => insertByCreated c (sortRecent rest)

/-- Modelled from the spec: execution of one store query against the
`contact_summary` rows (§6's relational view: case-insensitive substring
filters, ordering by creation timestamp descending, optional row limit). -/
def storeExec (db : List Contact) : StoreQuery → List Contact
  | StoreQuery.nameOr pats =>
    (sortRecent db).filter (fun c => pats.any (fun p => ilikeSub c.name p))
  | StoreQuery.companyIlike pat =>
    (sortRecent db).filter (fun c => ilikeSub c.company pat)
  | StoreQuery.positionIlike pat =>
    (sortRecent db).filter (fun c => ilikeSub c.position pat)
  | StoreQuery.recent lim => (sortRecent db).take lim

/-- A store whose calls succeed, backed by the rows `db`. -/
def goodStore (db : List Contact) : StoreQuery → Except (List Char) (List Contact) :=
  fun q => Except.ok (storeExec db q)

/-- A store whose every call raises (models any store-access failure). -/
def failStore (e : List Char) : StoreQuery → Except (List Char) (List Contact) :=
  fun _ => Except.error e

/-- Python truthiness of the `filter_value` argument (`and filter_value`):
an empty string or empty list is falsy. -/
def filterTruthy : FilterVal → Bool
  | FilterVal.str s => !s.isEmpty
  | FilterVal.list l => !l.isEmpty

/-- Line 164 of the source:
`filter_value if isinstance(filter_value, list) else [filter_value]`. -/
def termsOf : FilterVal → List (List Char)
  | FilterVal.str s => [s]
  | FilterVal.list l => l

/-- The string content of a filter; the company/position branches
interpolate `filter_value` into an `ilike` pattern, and the classifier
only ever sends them strings. -/
def strOf : FilterVal → List Char
  | FilterVal.str s => s
  | FilterVal.list _ => []

/-- Embedding of `AIInterface._fetch_filtered_contacts` (lines 147-216):
one store query per intent kind (name terms OR-ed and lowercased, company
and position as single `ilike` filters, otherwise the 100 most recent
rows), with the surrounding `try/except` returning `[]` on any
store-access failure. -/
def fetchFilteredContacts (run : StoreQuery → Except (List Char) (List Contact))
    (query_type : IntentKind) (filter_value : FilterVal) : List Contact :=
  let res :=
    if query_type = IntentKind.name_search ∧ filterTruthy filter_value = true then
      run (StoreQuery.nameOr ((termsOf filter_value).map (fun t => t.map lowerChar)))
    else if query_type = IntentKind.company_search ∧ filterTruthy filter_value = true then
      run (StoreQuery.companyIlike (strOf filter_value))
    else if query_type = IntentKind.position_search ∧ filterTruthy filter_value = true then
      run (StoreQuery.positionIlike (strOf filter_value))
    else
      run (StoreQuery.recent 100)
  match res with
  | Except.ok data => data
  | Except.error _ => []

/-- Python truthiness of an optional string field. -/
def truthyOpt : Option (List Char) → Bool
  | none => false
  | some s => !s.isEmpty

/-- The string under an optional field (only read after a truthiness
check succeeded). -/
def getOrEmpty : Option (List Char) → List Char
  | none => []
  | some s => s

/-- One numbered line of `_prepare_context` (lines 245-280): unconditional
`contact['name']` access (a missing name raises `KeyError('name')`, whose
`str` is `'name'` in quotes), then company/position parenthesized, tags
bracketed, a 120-character bio budget cut to 117 characters plus an
ellipsis, the last-interaction date, and the populated contact channels
joined with commas. -/
def contactLine (i : Nat) (c : Contact) : Except (List Char) (List Char) :=
  match c.name with
  | none => Except.error ("'name'".data)
  | some nm =>
    let tags := List.intercalate (", ".data) c.tags
    let line0 := (Nat.repr i).data ++ (". ".data) ++ nm
    let line1 :=
      if truthyOpt c.company then
        line0 ++ (" (".data) ++ getOrEmpty c.company ++
          (if truthyOpt c.position then (", ".data) ++ getOrEmpty c.position
           else []) ++ (")".data)
      else line0
    let line2 :=
      if !tags.isEmpty then line1 ++ (" [Теги: ".data) ++ tags ++ ("]".data)
      else line1
    let line3 :=
      if truthyOpt c.bio then
        line2 ++ (" | Описание: ".data) ++
          (if (getOrEmpty c.bio).length ≤ 120 then getOrEmpty c.bio
           else (getOrEmpty c.bio).take 117 ++ ("...".data))
      else line2
    let line4 :=
      if truthyOpt c.last_interaction_date then
        line3 ++ (" | Последний контакт: ".data) ++ getOrEmpty c.last_interaction_date
      else line3
    let contact_info :=
      (if truthyOpt c.telegram then [("TG: ".data) ++ getOrEmpty c.telegram] else []) ++
      (if truthyOpt c.email then [("Email: ".data) ++ getOrEmpty c.email] else []) ++
      (if truthyOpt c.phone then [("Тел: ".data) ++ getOrEmpty c.phone] else [])
    let line5 :=
      if !contact_info.isEmpty then
        line4 ++ (" | ".data) ++ List.intercalate (", ".data) contact_info
      else line4
    Except.ok line5

/-- The loop of `_prepare_context`: render the records as lines numbered
from `i`, propagating the first `KeyError`. -/
def renderAll : Nat → List Contact → Except (List Char) (List (List Char))
  | _, [] => Except.ok []
  | i, c :: rest =>
    match contactLine i c with
    | Except.error e => Except.error e
    | Except.ok l =>
      match renderAll (i + 1) rest with
      | Except.error e => Except.error e
      | Except.ok ls => Except.ok (l :: ls)

/-- The trailing summary entry `f"\n... и ещё {total-max} контактов"`. -/
def summaryLine (n : Nat) : List Char :=
  ("\n... и ещё ".data) ++ (Nat.repr n).data ++ (" контактов".data)

/-- The `context_lines` list of `_prepare_context` (lines 230-284): the
first `max_contacts` records rendered as numbered lines, plus the summary
entry when the input exceeds the limit. -/
def contextLines (contacts_data : List Contact) (max_contacts : Nat) :
    Except (List Char) (List (List Char)) :=
  match renderAll 1 (contacts_data.take max_contacts) with
  | Except.error e => Except.error e
  | Except.ok ls =>
    Except.ok (if max_contacts < contacts_data.length then
                 ls ++ [summaryLine (contacts_data.length - max_contacts)]
               else ls)

/-- Embedding of `AIInterface._prepare_context`: the joined context text. -/
def prepareContext (contacts_data : List Contact) (max_contacts : Nat) :
    Except (List Char) (List Char) :=
  match contextLines contacts_data max_contacts with
  | Except.error e => Except.error e
  | Except.ok ls => Except.ok (List.intercalate ['\n'] ls)

/-- The fixed "not found" message of `process_query` (line 109). -/
def notFoundMsg : List Char :=
  "❌ Контакты не найдены. Попробуйте изменить запрос.".data

/-- The fixed error text prepended to `str(e)` by `process_query`'s
`except` clause (line 145). -/
def errorHead : List Char := "❌ Ошибка при обработке запроса: ".data

/-- Embedding of `AIInterface._format_response` (lines 288-292). -/
def formatResponse (ai_response : List Char) : List Char :=
  ("🤖 **Результат поиска:**\n\n".data) ++ ai_response

/-- The prompt f-string of `process_query` (lines 119-136). -/
def buildPrompt (user_query : List Char) (total_found : Nat) (shown : Nat)
    (context : List Char) : List Char :=
  ("У пользователя ".data) ++ (Nat.repr total_found).data ++
  (" контакт(ов), подходящих под запрос \"".data) ++ user_query ++
  ("\".\n\nВот первые ".data) ++ (Nat.repr shown).data ++
  (" из них:\n\n".data) ++ context ++
  ("\n\nЗАДАЧА: Красиво отформатируй эти контакты для пользователя.\n\nДля каждого контакта покажи:\n- Имя\n- Компания и должность (если есть)\n- Контактные данные (Email, Telegram, Телефон)\n- Последнее взаимодействие (если есть)\n\nВ КОНЦЕ обязательно добавь:\n".data) ++
  (if 10 < total_found then
     ("- Найдено еще ".data) ++ (Nat.repr (total_found - 10)).data ++
     (" контакт(ов)".data)
   else []) ++
  ("\n\nОтвечай по-русски, кратко и структурированно.".data)

/-- Embedding of `AIInterface.process_query` (lines 88-145), with the
store and the Gemini generation call passed as explicit capabilities.
The outer `try/except` turns any raised error (a missing `name` during
context building, or a failing generation call) into the fixed error
head followed by `str(e)`; `_fetch_filtered_contacts` already swallows
store failures internally. -/
def processQuery (run : StoreQuery → Except (List Char) (List Contact))
    (gen : List Char → Except (List Char) (List Char))
    (user_query : List Char) : List Char :=
  let qa := analyzeQuery user_query
  let contacts_data := fetchFilteredContacts run qa.type qa.filter
  if contacts_data.isEmpty then notFoundMsg
  else
    let display_contacts := contacts_data.take 10
    match prepareContext display_contacts 10 with
    | Except.error e => errorHead ++ e
    | Except.ok context =>
      match gen (buildPrompt user_query contacts_data.length
                   display_contacts.length context) with
      | Except.error e => errorHead ++ e
      | Except.ok text => formatResponse text

/-- Modelled from the spec: "a contact matches if its name contains *any*
term", case-insensitively — the per-term match predicate of the
`name_search` claim, to be compared with the repository's query. -/
def nameMatchesTerm (c : Contact) (t : List Char) : Bool :=
  match c.name with
  | none => false
  | some nm => containsSub (nm.map lowerChar) (t.map lowerChar)

/-- A fully-populated sample contact (the spec's end-to-end example). -/
def ivanContact : Contact :=
  ⟨some "Ivan Petrov".data, some "TechCorp".data, some "HR Manager".data,
   [], none, none, some "@ivan_hr".data, none, none, 3⟩

/-- A second sample contact. -/
def annaContact : Contact :=
  ⟨some "Anna Sidorova".data, none, none, [], none, none, none, none, none, 2⟩

/-- A record with no `name` key. -/
def namelessContact : Contact :=
  ⟨none, none, none, [], none, none, none, none, none, 1⟩

theorem mem_insertByCreated (a c : Contact) (l : List Contact) :
    a ∈ insertByCreated c l ↔ a = c ∨ a ∈ l := by
  induction l with
  | nil => simp [insertByCreated]
  | cons d rest ih =>
    unfold insertByCreated
    split
    · simp [List.mem_cons]
    · simp only [List.mem_cons, ih]
      tauto

theorem mem_sortRecent (a : Contact) (l : List Contact) :
    a ∈ sortRecent l ↔ a ∈ l := by
  induction l with
  | nil => simp [sortRecent]
  | cons c rest ih => simp [sortRecent, mem_insertByCreated, ih]

theorem upperLower_keys_disjoint :
    ∀ p ∈ upperLowerPairs, upperLowerPairs.find? (fun q => q.1 == p.2) = none := by
  decide

theorem lowerChar_idem (c : Char) : lowerChar (lowerChar c) = lowerChar c := by
  cases hf : upperLowerPairs.find? (fun p => p.1 == c) with
  | none =>
    have h1 : lowerChar c = c := by unfold lowerChar; rw [hf]
    rw [h1]
    exact h1
  | some p =>
    have h1 : lowerChar c = p.2 := by unfold lowerChar; rw [hf]
    have h2 : lowerChar p.2 = p.2 := by
      unfold lowerChar
      rw [upperLower_keys_disjoint p (List.mem_of_find?_eq_some hf)]
    rw [h1, h2]

theorem map_lower_idem (l : List Char) :
    (l.map lowerChar).map lowerChar = l.map lowerChar := by
  induction l with
  | nil => rfl
  | cons c t ih => simp [lowerChar_idem, ih]

theorem ilikeSub_lower_eq (c : Contact) (t : List Char) :
    ilikeSub c.name (t.map lowerChar) = nameMatchesTerm c t := by
  unfold ilikeSub nameMatchesTerm
  cases c.name with
  | none => rfl
  | some nm => rw [map_lower_idem]

theorem contactLine_ok (i : Nat) (c : Contact) (nm : List Char)
    (h : c.name = some nm) : ∃ s, contactLine i c = Except.ok s := by
  unfold contactLine
  rw [h]
  exact ⟨_, rfl⟩

theorem renderAll_ok (l : List Contact) (i : Nat)
    (h : ∀ c ∈ l, c.name ≠ none) :
    ∃ ls, renderAll i l = Except.ok ls ∧ ls.length = l.length := by
  induction l generalizing i with
  | nil => exact ⟨[], rfl, rfl⟩
  | cons c rest ih =>
    have hc : c.name ≠ none := h c (List.mem_cons_self c rest)
    obtain ⟨nm, hnm⟩ : ∃ nm, c.name = some nm := by
      cases hcn : c.name with
      | none => exact absurd hcn hc
      | some nm => exact ⟨nm, rfl⟩
    obtain ⟨s, hs⟩ := contactLine_ok i c nm hnm
    obtain ⟨ls, hls, hlen⟩ := ih (i + 1) (fun d hd => h d (List.mem_cons_of_mem c hd))
    refine ⟨s :: ls, ?_, by simp [hlen]⟩
    unfold renderAll
    rw [hs, hls]

theorem prepareContext_ok (l : List Contact) (m : Nat)
    (h : ∀ c ∈ l, c.name ≠ none) : ∃ s, prepareContext l m = Except.ok s := by
  obtain ⟨rl, hok, -⟩ :=
    renderAll_ok (l.take m) 1 (fun c hc => h c (List.take_subset m l hc))
  unfold prepareContext contextLines
  rw [hok]
  exact ⟨_, rfl⟩

theorem processQuery_empty
    (run : StoreQuery → Except (List Char) (List Contact))
    (gen : List Char → Except (List Char) (List Char)) (q : List Char)
    (h : fetchFilteredContacts run (analyzeQuery q).type (analyzeQuery q).filter = []) :
    processQuery run gen q = notFoundMsg := by
  simp [processQuery, h]

theorem fetch_failStore_empty (e : List Char) (qt : IntentKind) (fv : FilterVal) :
    fetchFilteredContacts (failStore e) qt fv = [] := by
  simp only [fetchFilteredContacts, failStore, ite_self]

/-- C1: for every input string the classifier `_analyze_query` is total
and deterministic — it is embedded as a total Lean function, so totality
and determinism hold by construction — and the intent kind it returns is
one of the five kinds of the `QueryIntent` model. -/
theorem classifier_total_five_kinds (q : List Char) :
    (analyzeQuery q).type ∈
      [IntentKind.name_search, IntentKind.company_search,
       IntentKind.position_search, IntentKind.tag_search, IntentKind.general] := by
  cases h : (analyzeQuery q).type <;> simp

/-- Closed instance of `classifier_total_five_kinds`. -/
theorem classifier_total_five_kinds_witness :
    (analyzeQuery "Ivan".data).type ∈
      [IntentKind.name_search, IntentKind.company_search,
       IntentKind.position_search, IntentKind.tag_search, IntentKind.general] :=
  classifier_total_five_kinds ("Ivan".data)

/-- C2: whenever the repository step returns an empty record set,
`process_query` returns the fixed "not found" message, for every
generation collaborator — so the generator is never consulted and the
result does not depend on it. -/
theorem empty_records_not_found
    (run : StoreQuery → Except (List Char) (List Contact)) (q : List Char)
    (h : fetchFilteredContacts run (analyzeQuery q).type (analyzeQuery q).filter = []) :
    ∀ gen : List Char → Except (List Char) (List Char),
      processQuery run gen q = notFoundMsg :=
  fun gen => processQuery_empty run gen q h

/-- Witness for C2: an empty store and the query "Ivan". -/
theorem empty_records_not_found_witness :
    processQuery (goodStore []) (fun _ => Except.ok ("ok".data)) ("Ivan".data) =
      notFoundMsg :=
  empty_records_not_found (goodStore []) ("Ivan".data) (by rfl)
    (fun _ => Except.ok ("ok".data))

/-- C3: for a `name_search` intent with a nonempty term list, the
repository returns exactly the contacts whose name contains at least one
of the terms case-insensitively — the union of the per-term matches, with
no result cap. -/
theorem name_search_is_union (db : List Contact) (terms : List (List Char))
    (c : Contact) (h : terms ≠ []) :
    (c ∈ fetchFilteredContacts (goodStore db) IntentKind.name_search
        (FilterVal.list terms)) ↔
      (c ∈ db ∧ ∃ t ∈ terms, nameMatchesTerm c t = true) := by
  have ht : filterTruthy (FilterVal.list terms) = true := by
    simp [filterTruthy, List.isEmpty_iff, h]
  simp only [fetchFilteredContacts, goodStore, termsOf, ht, and_true]
  rw [if_pos trivial]
  simp only [storeExec, List.mem_filter, mem_sortRecent, List.any_map,
    List.any_eq_true, Function.comp]
  constructor
  · rintro ⟨hdb, t, htm, hmt⟩
    exact ⟨hdb, t, htm, by rw [← ilikeSub_lower_eq]; exact hmt⟩
  · rintro ⟨hdb, t, htm, hmt⟩
    exact ⟨hdb, t, htm, by rw [ilikeSub_lower_eq]; exact hmt⟩

/-- Witness for C3: terms ["Ivan","Sidorova"] against a two-contact
store. -/
theorem name_search_is_union_witness :
    (ivanContact ∈ fetchFilteredContacts (goodStore [ivanContact, annaContact])
        IntentKind.name_search (FilterVal.list ["Ivan".data, "Sidorova".data])) ↔
      (ivanContact ∈ [ivanContact, annaContact] ∧
        ∃ t ∈ ["Ivan".data, "Sidorova".data],
          nameMatchesTerm ivanContact t = true) :=
  name_search_is_union [ivanContact, annaContact]
    ["Ivan".data, "Sidorova".data] ivanContact (by decide)

/-- C4: `_prepare_context` renders at most `max_contacts` records as
numbered lines and, when the input has more records than the limit,
appends exactly one trailing summary entry stating the omitted count. -/
theorem context_builder_limit_and_summary (l : List Contact) (m : Nat)
    (h : ∀ c ∈ l, c.name ≠ none) :
    ∃ rl, renderAll 1 (l.take m) = Except.ok rl ∧
      rl.length = min m l.length ∧
      contextLines l m =
        Except.ok (if m < l.length then rl ++ [summaryLine (l.length - m)]
                   else rl) := by
  obtain ⟨rl, hok, hlen⟩ :=
    renderAll_ok (l.take m) 1 (fun c hc => h c (List.take_subset m l hc))
  refine ⟨rl, hok, ?_, ?_⟩
  · rw [hlen, List.length_take]
  · unfold contextLines
    rw [hok]

/-- Witness for C4: 15 records with limit 10 yield exactly 10 numbered
lines plus one summary entry stating 5 omitted. -/
theorem context_builder_limit_and_summary_witness :
    ∃ rl, renderAll 1 ((List.replicate 15 annaContact).take 10) = Except.ok rl ∧
      rl.length = 10 ∧
      contextLines (List.replicate 15 annaContact) 10 =
        Except.ok (rl ++ [summaryLine 5]) := by
  obtain ⟨rl, h1, h2, h3⟩ :=
    context_builder_limit_and_summary (List.replicate 15 annaContact) 10
      (by decide)
  refine ⟨rl, h1, by simpa using h2, by simpa using h3⟩

/-- C9: the classifier can never produce the `tag_search` kind, so no
tag-based search strategy is reachable through the pipeline. -/
theorem classifier_never_tag_search (q : List Char) :
    (analyzeQuery q).type ≠ IntentKind.tag_search := by
  unfold analyzeQuery
  repeat' split
  all_goals intro hc
  all_goals exact IntentKind.noConfusion hc

/-- Closed instance of `classifier_never_tag_search`. -/
theorem classifier_never_tag_search_witness :
    (analyzeQuery "Ivan".data).type ≠ IntentKind.tag_search :=
  classifier_never_tag_search ("Ivan".data)

/-- C5 counterexample: the error string `process_query` returns when the
generation call fails is not fixed — it embeds `str(e)`, so two different
generation failures produce two different user-visible strings. -/
theorem generation_error_not_fixed_string :
    processQuery (goodStore [ivanContact])
        (fun _ => Except.error ("network error".data)) ("Ivan".data) ≠
      processQuery (goodStore [ivanContact])
        (fun _ => Except.error ("quota exceeded".data)) ("Ivan".data) := by
  decide

/-- C5 amended: when the generation call fails with message `e` (and the
retrieved records are renderable), `process_query` returns the fixed
error head `"❌ Ошибка при обработке запроса: "` followed by `str(e)` —
one generation attempt, no retry, no partial result, and no propagated
fault (the embedding is a total function into strings). -/
theorem generation_failure_fixed_head
    (run : StoreQuery → Except (List Char) (List Contact))
    (gen : List Char → Except (List Char) (List Char)) (q e : List Char)
    (h1 : fetchFilteredContacts run (analyzeQuery q).type (analyzeQuery q).filter ≠ [])
    (h2 : ∀ c ∈ (fetchFilteredContacts run (analyzeQuery q).type
                  (analyzeQuery q).filter).take 10, c.name ≠ none)
    (h3 : ∀ p, gen p = Except.error e) :
    processQuery run gen q = errorHead ++ e := by
  obtain ⟨s, hs⟩ := prepareContext_ok _ 10 h2
  simp only [processQuery, hs, h3, List.isEmpty_eq_false.mpr h1,
    Bool.false_eq_true, if_false]

/-- Witness for the amended C5. -/
theorem generation_failure_fixed_head_witness :
    processQuery (goodStore [ivanContact])
        (fun _ => Except.error ("boom".data)) ("Ivan".data) =
      errorHead ++ ("boom".data) :=
  generation_failure_fixed_head (goodStore [ivanContact])
    (fun _ => Except.error ("boom".data)) ("Ivan".data) ("boom".data)
    (by decide) (by decide) (fun _ => rfl)

/-- C6 counterexample: the classifier's company markers are Russian
(`из X`, `в X`, `X компания`), so neither "Acme company" nor
"contacts at Acme" classifies as `company_search` (both fall through to
`name_search`). -/
theorem english_company_marker_not_matched :
    (analyzeQuery "Acme company".data).type ≠ IntentKind.company_search ∧
      (analyzeQuery "contacts at Acme".data).type ≠ IntentKind.company_search := by
  decide

/-- C6 amended: queries using the classifier's actual (Russian) company
markers return `company_search` with the captured company name trimmed —
"контакты в Acme" and "Acme компания" both yield filter "Acme" — while
the English phrasings "contacts at Acme" and "Acme company" classify as
`name_search` with filter ["Acme"]. -/
theorem russian_company_markers :
    analyzeQuery "контакты в Acme".data =
        ⟨IntentKind.company_search, FilterVal.str ("Acme".data)⟩ ∧
      analyzeQuery "Acme компания".data =
        ⟨IntentKind.company_search, FilterVal.str ("Acme".data)⟩ ∧
      analyzeQuery "contacts at Acme".data =
        ⟨IntentKind.name_search, FilterVal.list [("Acme".data)]⟩ ∧
      analyzeQuery "Acme company".data =
        ⟨IntentKind.name_search, FilterVal.list [("Acme".data)]⟩ := by
  refine ⟨by decide, by decide, by decide, by decide⟩

/-- C7 counterexample: on a stop-word-only query the classifier does
return the `general` kind, but its filter is the raw query string rather
than an empty set of terms. -/
theorem general_intent_carries_raw_query :
    analyzeQuery "найди все контакты".data =
        ⟨IntentKind.general, FilterVal.str ("найди все контакты".data)⟩ ∧
      termsOf (analyzeQuery "найди все контакты".data).filter ≠ [] := by
  constructor
  · decide
  · decide

/-- C7 amended: when no company marker matches, no position keyword
occurs, and no token survives stop-word filtering, the classifier returns
the `general` intent carrying the raw query as its filter value — and the
repository's `general` strategy ignores the filter entirely, so no filter
terms are applied. -/
theorem stop_words_only_general (q : List Char)
    (h1 : p1Search (pstrip q) = none)
    (h2 : p2Search (pstrip q) = none)
    (h3 : positionKeywords.find?
        (fun k => containsSub (pstrip (q.map lowerChar)) k) = none)
    (h4 : searchTermsOf (pstrip q) = []) :
    analyzeQuery q = ⟨IntentKind.general, FilterVal.str q⟩ ∧
      ∀ (run : StoreQuery → Except (List Char) (List Contact)) (f1 f2 : FilterVal),
        fetchFilteredContacts run IntentKind.general f1 =
          fetchFilteredContacts run IntentKind.general f2 := by
  constructor
  · unfold analyzeQuery
    rw [h1, h2, h3, h4]
    rfl
  · intro run f1 f2
    unfold fetchFilteredContacts
    simp

/-- Witness for the amended C7. -/
theorem stop_words_only_general_witness :
    analyzeQuery "найди все контакты".data =
        ⟨IntentKind.general, FilterVal.str ("найди все контакты".data)⟩ ∧
      ∀ (run : StoreQuery → Except (List Char) (List Contact)) (f1 f2 : FilterVal),
        fetchFilteredContacts run IntentKind.general f1 =
          fetchFilteredContacts run IntentKind.general f2 :=
  stop_words_only_general ("найди все контакты".data)
    (by decide) (by decide) (by decide) (by decide)

/-- C8: when every store access raises, `_fetch_filtered_contacts`
returns the empty record set for every intent (the logged diagnostic is a
side effect outside the embedding), and the pipeline then surfaces the
fixed "not found" message instead of propagating the fault. -/
theorem store_failure_yields_empty (e : List Char) (qt : IntentKind)
    (fv : FilterVal) (gen : List Char → Except (List Char) (List Char))
    (q : List Char) :
    fetchFilteredContacts (failStore e) qt fv = [] ∧
      processQuery (failStore e) gen q = notFoundMsg :=
  ⟨fetch_failStore_empty e qt fv,
   processQuery_empty (failStore e) gen q (fetch_failStore_empty e _ _)⟩

/-- C10: `_prepare_context` accesses `name` unconditionally and every
other field defensively: with every record's `name` present it is total
(its failure branch is unreachable, whatever the other fields hold),
while a record lacking `name` is exactly the input shape that makes it
fail (with `KeyError('name')`). -/
theorem prepare_context_name_totality :
    (∀ (l : List Contact) (m : Nat), (∀ c ∈ l, c.name ≠ none) →
        ∃ s, prepareContext l m = Except.ok s) ∧
      prepareContext [namelessContact] 10 = Except.error ("'name'".data) := by
  constructor
  · intro l m h
    exact prepareContext_ok l m h
  · rfl

/-- Witness for C10: a fully-populated record renders successfully. -/
theorem prepare_context_name_totality_witness :
    ∃ s, prepareContext [ivanContact] 10 = Except.ok s :=
  prepare_context_name_totality.1 [ivanContact] 10 (by decide)

end ContactBot
